import Mathlib

/-!
Shallow embedding of the kia display manager (C sources under src/) and
proofs about its authentication/lockout policy, configuration loading,
controller credential handling and privileged session launch.

Conventions of the embedding:
* C `int`/`time_t` values are modelled as `Int` (no overflow occurs in the
  ranges exercised by the program logic).
* Nullable C pointers are modelled as `Option`; fixed-capacity `char[N]`
  buffers are modelled as `String` together with explicit truncation to
  `N - 1` characters where the source uses `strncpy`.
* External effects (PAM, the TUI, the filesystem, syscalls in the forked
  child) are modelled as explicit inputs describing the outcome of each
  call; the embedded functions return the updated state instead of
  mutating through pointers.
* `time(NULL)` is modelled as an explicit `now : Int` argument, constant
  within a single call.
-/

/- Error codes from include/config.h -/

def KIA_SUCCESS : Int := 0

def KIA_ERROR_CONFIG : Int := -1

def KIA_ERROR_AUTH : Int := -2

def KIA_ERROR_SESSION : Int := -3

def KIA_ERROR_SYSTEM : Int := -4

def KIA_ERROR_PAM : Int := -5

/-- Configuration structure from include/config.h (`kia_config_t`). -/
structure kia_config_t where
  autologin_user : String
  autologin_enabled : Bool
  default_session : String
  max_attempts : Int
  enable_logs : Bool
  lockout_duration : Int
deriving DecidableEq, Repr

/-- Authentication state from include/auth.h (`auth_state_t`):
`char username[256]`, `int failed_attempts`, `time_t lockout_until`. -/
structure auth_state_t where
  username : String
  failed_attempts : Int
  lockout_until : Int
deriving DecidableEq, Repr

/-- The zero-initialized authentication state (`auth_state_t state = {0}`). -/
def auth_state_zero : auth_state_t :=
  { username := "", failed_attempts := 0, lockout_until := 0 }

/-- Outcome of the external PAM calls made by one `auth_authenticate` call:
whether `pam_start` succeeds, whether `pam_authenticate` accepts the
credential pair, and whether `pam_acct_mgmt` accepts the account. -/
structure pam_outcome_t where
  start_ok : Bool
  auth_ok : Bool
  acct_ok : Bool
deriving DecidableEq, Repr

/-- `strncpy(dst, src, cap - 1)` into a zeroed `char[cap]` buffer: the stored
string is `src` truncated to `cap - 1` characters. -/
def strncpy_trunc (cap : Nat) (s : String) : String :=
  String.mk (s.toList.take (cap - 1))

/-- Core of `auth_is_locked_out` (src/auth.c lines 230-248) on a non-null
state: returns the boolean result and the (possibly cleared) state. -/
def auth_is_locked_out_state (now : Int) (st : auth_state_t) :
    Bool × auth_state_t :=
  if st.lockout_until = 0 then (false, st)
  else if now ≥ st.lockout_until then
    (false, { st with lockout_until := 0, failed_attempts := 0 })
  else (true, st)

/-- `auth_is_locked_out` (src/auth.c lines 230-248): a null state is never
locked out; otherwise defer to the core on the pointed-to state. -/
def auth_is_locked_out (now : Int) :
    Option auth_state_t → Bool × Option auth_state_t
  | none => (false, none)
  | some st =>
    let r := auth_is_locked_out_state now st
    (r.1, some r.2)

/-- `auth_reset_attempts` (src/auth.c lines 250-255). -/
def auth_reset_attempts : Option auth_state_t → Option auth_state_t
  | none => none
  | some st => some { st with failed_attempts := 0, lockout_until := 0 }

/-- Result of one embedded `auth_authenticate` call on non-null arguments:
the returned code, the updated state, and whether the PAM conversation was
started (`pam_start` reached) — the lockout early return happens before it. -/
structure auth_core_result where
  code : Int
  state : auth_state_t
  pam_started : Bool
deriving DecidableEq, Repr

/-- Shared failure bookkeeping of `auth_authenticate` (src/auth.c lines
186-192 and 206-217): increment `failed_attempts` and, if the counter
reached `max_attempts`, set `lockout_until = time(NULL) + lockout_duration`. -/
def auth_record_failure (cfg : kia_config_t) (now : Int) (st : auth_state_t) :
    auth_state_t :=
  let st := { st with failed_attempts := st.failed_attempts + 1 }
  if st.failed_attempts ≥ cfg.max_attempts then
    { st with lockout_until := now + cfg.lockout_duration }
  else st

/-- `auth_authenticate` (src/auth.c lines 130-228) after the null-pointer
check: lockout check (with its lazy-expiry side effect), tracked-username
switch, then the PAM sequence `pam_start` / `pam_authenticate` /
`pam_acct_mgmt` with the source's success and failure bookkeeping. -/
def auth_authenticate_core (username : String) (_password : String)
    (cfg : kia_config_t) (st : auth_state_t) (now : Int)
    (pam : pam_outcome_t) : auth_core_result :=
  let lk := auth_is_locked_out_state now st
  if lk.1 then
    { code := KIA_ERROR_AUTH, state := lk.2, pam_started := false }
  else
    let st1 := lk.2
    let st2 :=
      if st1.username = username then st1
      else { st1 with username := strncpy_trunc 256 username,
                      failed_attempts := 0, lockout_until := 0 }
    if ¬ pam.start_ok then
      { code := KIA_ERROR_PAM, state := st2, pam_started := true }
    else if pam.auth_ok then
      if pam.acct_ok then
        { code := KIA_SUCCESS,
          state := { st2 with failed_attempts := 0, lockout_until := 0 },
          pam_started := true }
      else
        { code := KIA_ERROR_AUTH, state := auth_record_failure cfg now st2,
          pam_started := true }
    else
      { code := KIA_ERROR_AUTH, state := auth_record_failure cfg now st2,
        pam_started := true }

/-- Result of `auth_authenticate` with the nullable state threaded through. -/
structure auth_result_t where
  code : Int
  state : Option auth_state_t
  pam_started : Bool
deriving DecidableEq, Repr

/-- `auth_authenticate` (src/auth.c lines 130-228): the null-pointer
parameter check rejects with `KIA_ERROR_AUTH` and no side effects, otherwise
the core runs on the pointed-to values. -/
def auth_authenticate (username password : Option String)
    (config : Option kia_config_t) (state : Option auth_state_t)
    (now : Int) (pam : pam_outcome_t) : auth_result_t :=
  match username, password, config, state with
  | some u, some p, some cfg, some st =>
    let r := auth_authenticate_core u p cfg st now pam
    { code := r.code, state := some r.state, pam_started := r.pam_started }
  | _, _, _, _ =>
    { code := KIA_ERROR_AUTH, state := state, pam_started := false }

/-! ## Trace semantics for the authentication state

The per-run `auth_state_t` starts zero-initialized and is touched only by
`auth_authenticate`, `auth_is_locked_out` and `auth_reset_attempts`
(src/controller.c threads `&ctx->auth_state` into exactly these calls). -/

/-- One call that can touch the authentication state. -/
inductive auth_op_t where
  | authenticate (username password : String) (now : Int) (pam : pam_outcome_t)
  | is_locked_out (now : Int)
  | reset_attempts
deriving DecidableEq, Repr

/-- The state after one call from `auth_op_t`. -/
def auth_op_apply (cfg : kia_config_t) (st : auth_state_t) :
    auth_op_t → auth_state_t
  | .authenticate u p now pam => (auth_authenticate_core u p cfg st now pam).state
  | .is_locked_out now => (auth_is_locked_out_state now st).2
  | .reset_attempts => { st with failed_attempts := 0, lockout_until := 0 }

/-- The state after a sequence of calls. -/
def auth_run (cfg : kia_config_t) (st : auth_state_t)
    (ops : List auth_op_t) : auth_state_t :=
  ops.foldl (auth_op_apply cfg) st

/-- `time(NULL)` during an `auth_authenticate` call is a positive epoch
second count. -/
def auth_op_time_pos : auth_op_t → Bool
  | .authenticate _ _ now _ => decide (1 ≤ now)
  | _ => true

/-- The invariant of claim C6 on an authentication state. -/
def auth_inv (cfg : kia_config_t) (st : auth_state_t) : Prop :=
  0 ≤ st.failed_attempts ∧ st.failed_attempts ≤ cfg.max_attempts ∧
  (st.lockout_until ≠ 0 → st.failed_attempts = cfg.max_attempts)

/-- Strengthening of `auth_inv` that is inductive over `auth_op_apply`. -/
def auth_inv_strong (cfg : kia_config_t) (st : auth_state_t) : Prop :=
  0 ≤ st.failed_attempts ∧
  (st.lockout_until = 0 → st.failed_attempts < cfg.max_attempts) ∧
  (st.lockout_until ≠ 0 → st.failed_attempts = cfg.max_attempts)

/-! ## Concrete fixtures used by the witness theorems -/

/-- The default configuration values of src/config.c. -/
def cfg_fixture : kia_config_t :=
  { autologin_user := "", autologin_enabled := false,
    default_session := "xfce", max_attempts := 3, enable_logs := true,
    lockout_duration := 60 }

def pam_reject_fixture : pam_outcome_t :=
  { start_ok := true, auth_ok := false, acct_ok := true }

def pam_accept_fixture : pam_outcome_t :=
  { start_ok := true, auth_ok := true, acct_ok := true }

def st_bob2_fixture : auth_state_t :=
  { username := "bob", failed_attempts := 2, lockout_until := 0 }

def st_locked_fixture : auth_state_t :=
  { username := "bob", failed_attempts := 3, lockout_until := 100 }

/-! ## Configuration loading (src/config.c)

The file is modelled as `Option (List String)`: `none` when `fopen` fails
(missing file), otherwise the list of lines read by `fgets`, each without
its terminating newline. -/

/-- C `isspace` over the ASCII range (space, tab, newline, vertical tab,
form feed, carriage return). -/
def isspace_c (c : Char) : Bool :=
  c = ' ' || c = '\t' || c = '\n' || c = Char.ofNat 11 ||
  c = Char.ofNat 12 || c = '\r'

/-- `trim_whitespace` (src/config.c lines 36-57) on a character list. -/
def trim_whitespace_list (l : List Char) : List Char :=
  ((l.dropWhile isspace_c).reverse.dropWhile isspace_c).reverse

/-- `trim_whitespace` on a string. -/
def trim_whitespace (s : String) : String :=
  String.mk (trim_whitespace_list s.toList)

/-- Digit-consuming loop of C `atoi`: accumulate leading decimal digits,
stop at the first non-digit. -/
def atoi_digits : List Char → Int → Int
  | [], acc => acc
  | c :: rest, acc =>
    if c.isDigit then atoi_digits rest (acc * 10 + (c.toNat - 48 : Nat))
    else acc

/-- C `atoi`: skip leading whitespace, optional sign, then digits
(modelled without machine-int overflow, which is undefined behaviour in C). -/
def atoi_list (l : List Char) : Int :=
  match l.dropWhile isspace_c with
  | '-' :: rest => - atoi_digits rest 0
  | '+' :: rest => atoi_digits rest 0
  | l1 => atoi_digits l1 0

/-- `strchr(line, '=')` and the split into the part before and after the
first equals sign; `none` when the line has no equals sign. -/
def split_at_equals : List Char → Option (List Char × List Char)
  | [] => none
  | c :: rest =>
    if c = '=' then some ([], rest)
    else
      match split_at_equals rest with
      | none => none
      | some (a, b) => some (c :: a, b)

/-- `parse_bool` (src/config.c lines 62-68). -/
def parse_bool (value : List Char) : Bool :=
  value == "true".toList || value == "1".toList ||
  value == "yes".toList || value == "on".toList

/-- Default configuration (src/config.c `config_set_defaults`,
lines 22-31). -/
def config_set_defaults : kia_config_t :=
  { autologin_user := "", autologin_enabled := false,
    default_session := "xfce", max_attempts := 3, enable_logs := true,
    lockout_duration := 60 }

/-- `parse_config_line` (src/config.c lines 73-148) on a non-null line and
config: returns the code and the (possibly updated) configuration.
Out-of-range numeric values are rejected without being stored; unknown keys
are silently ignored. -/
def parse_config_line (line : String) (config : kia_config_t) :
    Int × kia_config_t :=
  match line.toList with
  | [] => (KIA_SUCCESS, config)
  | c :: rest =>
    if c = '#' then (KIA_SUCCESS, config)
    else
      match split_at_equals (c :: rest) with
      | none => (KIA_ERROR_CONFIG, config)
      | some (rawkey, rawvalue) =>
        let key := trim_whitespace_list rawkey
        let value := trim_whitespace_list rawvalue
        if key = [] then (KIA_ERROR_CONFIG, config)
        else if key == "autologin_enabled".toList then
          (KIA_SUCCESS, { config with autologin_enabled := parse_bool value })
        else if key == "autologin_user".toList then
          if 256 ≤ value.length then (KIA_ERROR_CONFIG, config)
          else (KIA_SUCCESS, { config with autologin_user := String.mk value })
        else if key == "default_session".toList then
          if 256 ≤ value.length then (KIA_ERROR_CONFIG, config)
          else (KIA_SUCCESS, { config with default_session := String.mk value })
        else if key == "max_attempts".toList then
          if value = [] then (KIA_ERROR_CONFIG, config)
          else
            let attempts := atoi_list value
            if attempts < 1 ∨ attempts > 10 then (KIA_ERROR_CONFIG, config)
            else (KIA_SUCCESS, { config with max_attempts := attempts })
        else if key == "enable_logs".toList then
          (KIA_SUCCESS, { config with enable_logs := parse_bool value })
        else if key == "lockout_duration".toList then
          if value = [] then (KIA_ERROR_CONFIG, config)
          else
            let duration := atoi_list value
            if duration < 0 ∨ duration > 3600 then (KIA_ERROR_CONFIG, config)
            else (KIA_SUCCESS, { config with lockout_duration := duration })
        else (KIA_SUCCESS, config)

/-- `config_validate` (src/config.c lines 223-240) on a non-null config. -/
def config_validate (config : kia_config_t) : Int :=
  if config.max_attempts < 1 ∨ config.max_attempts > 10 then KIA_ERROR_CONFIG
  else if config.lockout_duration < 0 then KIA_ERROR_CONFIG
  else KIA_SUCCESS

/-- `line[strcspn(line, "\r\n")] = '\0'` — cut at the first CR or LF. -/
def strip_cr_lf (s : String) : String :=
  String.mk (s.toList.takeWhile (fun c => c != '\r' && c != '\n'))

/-- One iteration of the `fgets` loop of `config_load` (src/config.c lines
178-204): a physical line of 1023 or more characters is truncated by
`fgets`, skipped and flagged; otherwise the line is stripped, trimmed and
parsed, flagging `has_error` when the parse rejects it. -/
def config_process_line (acc : kia_config_t × Bool) (line : String) :
    kia_config_t × Bool :=
  if 1023 ≤ line.length then (acc.1, true)
  else
    let trimmed := trim_whitespace (strip_cr_lf line)
    let r := parse_config_line trimmed acc.1
    (r.2, if r.1 = KIA_SUCCESS then acc.2 else true)

/-- `config_load` (src/config.c lines 150-221) on a non-null config
pointer: null or empty path yields the defaults with an error code; a
missing file yields the defaults with success; otherwise the lines are
folded over the defaults, the result is validated (reverting wholesale to
defaults on validation failure), and any flagged line yields the error
code. -/
def config_load (path : Option String) (file : Option (List String)) :
    Int × kia_config_t :=
  match path with
  | none => (KIA_ERROR_CONFIG, config_set_defaults)
  | some p =>
    if p = "" then (KIA_ERROR_CONFIG, config_set_defaults)
    else
      match file with
      | none => (KIA_SUCCESS, config_set_defaults)
      | some lines =>
        let acc := lines.foldl config_process_line (config_set_defaults, false)
        if config_validate acc.1 ≠ KIA_SUCCESS then
          (KIA_ERROR_CONFIG, config_set_defaults)
        else ((if acc.2 then KIA_ERROR_CONFIG else KIA_SUCCESS), acc.1)

/-! ## Privileged session launch (src/session.c) -/

inductive session_type_t where
  | x11
  | wayland
deriving DecidableEq, Repr

/-- `session_info_t` from include/session.h. -/
structure session_info_t where
  name : String
  exec : String
  type : session_type_t
deriving DecidableEq, Repr

/-- The fields of the `struct passwd` record used by `session_start`. -/
structure passwd_t where
  pw_dir : String
  pw_shell : String
  pw_uid : Nat
  pw_gid : Nat
deriving DecidableEq, Repr

/-- Outcomes of the syscalls the forked child performs, in source order:
the `setenv` calls, `chdir`, `setgid`, `setuid`, then the four identity
values re-read by `getuid`/`geteuid`/`getgid`/`getegid` after the drop, and
the success of the `execlp` attempts. -/
structure child_sys_t where
  setenv_home_ok : Bool
  setenv_user_ok : Bool
  setenv_logname_ok : Bool
  setenv_shell_ok : Bool
  setenv_proto_ok : Bool
  chdir_ok : Bool
  setgid_ok : Bool
  setuid_ok : Bool
  ruid : Nat
  euid : Nat
  rgid : Nat
  egid : Nat
  exec_startx_ok : Bool
  exec_shell_ok : Bool
deriving DecidableEq, Repr

/-- What the forked child ends up doing: replace its image by `execlp`
(recording program and argv), or terminate via `exit`. -/
inductive child_result_t where
  | execed (prog : String) (args : List String)
  | exited (code : Nat)
deriving DecidableEq, Repr

/-- The post-privilege-drop verification of src/session.c lines 341-342:
real and effective uid equal the target uid, real and effective gid equal
the target gid. -/
def ids_match (sys : child_sys_t) (pw : passwd_t) : Prop :=
  sys.ruid = pw.pw_uid ∧ sys.euid = pw.pw_uid ∧
  sys.rgid = pw.pw_gid ∧ sys.egid = pw.pw_gid

instance (sys : child_sys_t) (pw : passwd_t) : Decidable (ids_match sys pw) :=
  inferInstanceAs (Decidable (_ ∧ _ ∧ _ ∧ _))

/-- The child branch of `session_start` (src/session.c lines 284-362), in
source order: environment setup, `chdir`, `setgid` then `setuid`, the
mandatory identity verification, and only then the `execlp` attempts (for
X11 `startx` first with a shell fallback, for Wayland the shell directly).
Every failure path calls `exit(EXIT_FAILURE)`. -/
def session_child (session : session_info_t) (pw : passwd_t)
    (_username : String) (sys : child_sys_t) : child_result_t :=
  if ¬ sys.setenv_home_ok then .exited 1
  else if ¬ sys.setenv_user_ok then .exited 1
  else if ¬ sys.setenv_logname_ok then .exited 1
  else if ¬ sys.setenv_shell_ok then .exited 1
  else if ¬ sys.setenv_proto_ok then .exited 1
  else if ¬ sys.chdir_ok then .exited 1
  else if ¬ sys.setgid_ok then .exited 1
  else if ¬ sys.setuid_ok then .exited 1
  else if ¬ ids_match sys pw then .exited 1
  else
    match session.type with
    | .x11 =>
      if sys.exec_startx_ok then .execed "startx" ["startx", session.exec]
      else if sys.exec_shell_ok then .execed "/bin/sh" ["sh", "-c", session.exec]
      else .exited 1
    | .wayland =>
      if sys.exec_shell_ok then .execed "/bin/sh" ["sh", "-c", session.exec]
      else .exited 1

/-! ## Controller credential handling (src/controller.c)

Only the fields touched by `handle_get_credentials` and
`handle_authenticate` are modelled; the session catalog is not consulted by
either handler. -/

inductive app_state_t where
  | state_init
  | state_load_config
  | state_check_autologin
  | state_show_login
  | state_get_credentials
  | state_select_session
  | state_authenticate
  | state_start_session
  | state_exit
deriving DecidableEq, Repr

/-- The fields of `app_context_t` (include/controller.h) used by the
credential and authentication handlers. -/
structure app_context_t where
  state : app_state_t
  config : kia_config_t
  auth_state : auth_state_t
  username : String
  password : String
  selected_session : Int
  running : Bool
deriving DecidableEq, Repr

/-- What one `tui_get_credentials` call leaves behind: its return code and
the contents of the two destination buffers afterwards. -/
structure tui_cred_result_t where
  code : Int
  username : String
  password : String
deriving DecidableEq, Repr

/-- `handle_get_credentials` (src/controller.c lines 325-367): read the
credentials through the TUI, then validate non-empty username, username
length, and non-empty password; each failure returns to the login screen.
Only the length path clears the buffers (`memset` + `secure_memzero`). -/
def handle_get_credentials (ctx : app_context_t) (tui : tui_cred_result_t) :
    app_context_t × Int :=
  let ctx1 := { ctx with username := tui.username, password := tui.password }
  if tui.code ≠ KIA_SUCCESS then
    ({ ctx1 with state := .state_show_login }, tui.code)
  else if ctx1.username = "" then
    ({ ctx1 with state := .state_show_login }, KIA_SUCCESS)
  else if 255 < ctx1.username.length then
    ({ ctx1 with username := "", password := "",
                 state := .state_show_login }, KIA_SUCCESS)
  else if ctx1.password = "" then
    ({ ctx1 with state := .state_show_login }, KIA_SUCCESS)
  else
    ({ ctx1 with state := .state_select_session }, KIA_SUCCESS)

/-- `handle_authenticate` (src/controller.c lines 391-434): locked-out
early return (clearing the password), otherwise `auth_authenticate`
followed by the unconditional `secure_memzero` of the password, then the
success/failure transition (success also calls `auth_reset_attempts`). -/
def handle_authenticate (ctx : app_context_t) (now : Int)
    (pam : pam_outcome_t) : app_context_t × Int :=
  let lk := auth_is_locked_out_state now ctx.auth_state
  if lk.1 then
    ({ ctx with auth_state := lk.2, password := "",
                state := .state_show_login }, KIA_SUCCESS)
  else
    let r := auth_authenticate_core ctx.username ctx.password ctx.config
      lk.2 now pam
    let ctx2 := { ctx with auth_state := r.state, password := "" }
    if r.code = KIA_SUCCESS then
      let reset := { r.state with failed_attempts := 0, lockout_until := 0 }
      ({ ctx2 with auth_state := reset,
                   state := .state_start_session }, KIA_SUCCESS)
    else
      ({ ctx2 with state := .state_show_login }, KIA_SUCCESS)

/-- A run context about to enter `STATE_GET_CREDENTIALS` with cleared
credential buffers. -/
def ctx_fixture : app_context_t :=
  { state := .state_get_credentials, config := cfg_fixture,
    auth_state := auth_state_zero, username := "", password := "",
    selected_session := -1, running := true }

/-- The range invariant of claim C9 on a loaded configuration. -/
def config_in_range (cfg : kia_config_t) : Prop :=
  1 ≤ cfg.max_attempts ∧ cfg.max_attempts ≤ 10 ∧
  0 ≤ cfg.lockout_duration ∧ cfg.lockout_duration ≤ 3600

instance (cfg : kia_config_t) : Decidable (config_in_range cfg) :=
  inferInstanceAs (Decidable (_ ∧ _ ∧ _ ∧ _))

/-- An X11 session descriptor. -/
def session_fixture : session_info_t :=
  { name := "Plasma", exec := "startplasma-x11", type := .x11 }

/-- An unprivileged target account. -/
def passwd_fixture : passwd_t :=
  { pw_dir := "/home/user", pw_shell := "/bin/bash", pw_uid := 1000,
    pw_gid := 1000 }

/-- Child syscall outcomes where every setup call succeeds but the
effective uid silently stays 0 after `setuid` (an injected privilege-drop
failure). -/
def sys_drop_failed_fixture : child_sys_t :=
  { setenv_home_ok := true, setenv_user_ok := true, setenv_logname_ok := true,
    setenv_shell_ok := true, setenv_proto_ok := true, chdir_ok := true,
    setgid_ok := true, setuid_ok := true, ruid := 1000, euid := 0,
    rgid := 1000, egid := 1000, exec_startx_ok := true,
    exec_shell_ok := true }

/-- A concrete call trace: three rejected attempts for the same identity
(reaching the lockout threshold of `cfg_fixture`), a lockout probe, a
rejected attempt during the lockout, an expiry probe after the window, and
one successful attempt. -/
def ops_fixture : List auth_op_t :=
  [ .authenticate "bob" "w1" 100 pam_reject_fixture,
    .authenticate "bob" "w2" 101 pam_reject_fixture,
    .authenticate "bob" "w3" 102 pam_reject_fixture,
    .is_locked_out 103,
    .authenticate "bob" "right" 110 pam_accept_fixture,
    .is_locked_out 200,
    .authenticate "bob" "right" 201 pam_accept_fixture ]

/-! ## Helper lemmas -/

theorem string_mk_toList (s : String) : String.mk s.toList = s := rfl

theorem strncpy_trunc_of_le (cap : Nat) (s : String) (h : s.length ≤ cap - 1) :
    strncpy_trunc cap s = s := by
  have h2 : s.toList.length ≤ cap - 1 := h
  unfold strncpy_trunc
  rw [List.take_of_length_le h2, string_mk_toList]

theorem auth_is_locked_out_state_username (now : Int) (st : auth_state_t) :
    (auth_is_locked_out_state now st).2.username = st.username := by
  unfold auth_is_locked_out_state
  split_ifs <;> rfl

theorem auth_is_locked_out_state_false_lockout (now : Int) (st : auth_state_t)
    (h : (auth_is_locked_out_state now st).1 = false) :
    (auth_is_locked_out_state now st).2.lockout_until = 0 := by
  unfold auth_is_locked_out_state at h ⊢
  split_ifs at h ⊢ with h1 h2
  · exact h1
  · rfl

/-! ## Claim theorems -/

/-- Claim C2: while a lockout is set and still in the future,
`auth_authenticate` rejects every attempt — for any identity and any
secret, including the correct one — without ever starting the PAM
conversation with the identity provider. -/
theorem auth_locked_out_rejects_without_provider
    (u p : Option String) (cfg : kia_config_t) (st : auth_state_t)
    (now : Int) (pam : pam_outcome_t)
    (hset : st.lockout_until ≠ 0) (hfut : now < st.lockout_until) :
    (auth_authenticate u p (some cfg) (some st) now pam).code =
        KIA_ERROR_AUTH ∧
    (auth_authenticate u p (some cfg) (some st) now pam).pam_started =
        false := by
  have hnot : ¬ now ≥ st.lockout_until := not_le.mpr hfut
  cases u <;> cases p <;>
    simp [auth_authenticate, auth_authenticate_core,
      auth_is_locked_out_state, hset, hnot]

/-- Witness for C2: a locked-out state rejects the correct secret at time
50 < 100 without starting PAM. -/
theorem auth_locked_out_rejects_without_provider_witness :
    (auth_authenticate (some "bob") (some "correct-secret") (some cfg_fixture)
        (some st_locked_fixture) 50 pam_accept_fixture).code =
        KIA_ERROR_AUTH ∧
    (auth_authenticate (some "bob") (some "correct-secret") (some cfg_fixture)
        (some st_locked_fixture) 50 pam_accept_fixture).pam_started = false :=
  auth_locked_out_rejects_without_provider (some "bob") (some "correct-secret")
    cfg_fixture st_locked_fixture 50 pam_accept_fixture (by decide) (by decide)

/-- Claim C5: `auth_is_locked_out` returns true exactly while
`lockout_until` is nonzero and in the future; a nonzero `lockout_until`
that has been reached or passed makes it return false and clear both
`lockout_until` and `failed_attempts`; a null state is never locked out. -/
theorem auth_is_locked_out_spec (now : Int) (st : auth_state_t) :
    ((auth_is_locked_out now (some st)).1 = true ↔
      st.lockout_until ≠ 0 ∧ now < st.lockout_until) ∧
    (st.lockout_until ≠ 0 → st.lockout_until ≤ now →
      auth_is_locked_out now (some st) =
        (false, some { st with lockout_until := 0, failed_attempts := 0 })) ∧
    auth_is_locked_out now none = (false, none) := by
  refine ⟨?_, ?_, rfl⟩
  · unfold auth_is_locked_out auth_is_locked_out_state
    by_cases h0 : st.lockout_until = 0
    · simp [h0]
    · by_cases hle : now ≥ st.lockout_until
      · simp [h0, hle, not_lt.mpr hle]
      · simp [h0, hle, lt_of_not_ge hle]
  · intro h0 hle
    unfold auth_is_locked_out auth_is_locked_out_state
    simp [h0, hle]

/-- Witness for C5: an expired lockout (10 ≤ 20) is reported unlocked and
both fields are cleared. -/
theorem auth_is_locked_out_spec_witness :
    auth_is_locked_out 20
        (some { username := "bob", failed_attempts := 2, lockout_until := 10 }) =
      (false,
        some { username := "bob", failed_attempts := 0, lockout_until := 0 }) :=
  (auth_is_locked_out_spec 20
      { username := "bob", failed_attempts := 2, lockout_until := 10 }).2.1
    (by decide) (by decide)

/-- Claim C10: during an active lockout, `auth_authenticate` rejects an
attempt for every identity — including one different from the tracked
identity — without starting PAM and with the entire state unchanged: the
lockout check precedes the identity-switch reset. -/
theorem auth_lockout_blocks_identity_switch
    (u p : String) (cfg : kia_config_t) (st : auth_state_t) (now : Int)
    (pam : pam_outcome_t) (hset : st.lockout_until ≠ 0)
    (hfut : now < st.lockout_until) :
    auth_authenticate (some u) (some p) (some cfg) (some st) now pam =
      { code := KIA_ERROR_AUTH, state := some st, pam_started := false } := by
  have hnot : ¬ now ≥ st.lockout_until := not_le.mpr hfut
  simp [auth_authenticate, auth_authenticate_core,
    auth_is_locked_out_state, hset, hnot]

/-- Witness for C10: an attempt for a different identity during an active
lockout leaves the tracked identity and counter untouched. -/
theorem auth_lockout_blocks_identity_switch_witness :
    auth_authenticate (some "mallory") (some "pw") (some cfg_fixture)
        (some st_locked_fixture) 50 pam_reject_fixture =
      { code := KIA_ERROR_AUTH, state := some st_locked_fixture,
        pam_started := false } :=
  auth_lockout_blocks_identity_switch "mallory" "pw" cfg_fixture
    st_locked_fixture 50 pam_reject_fixture (by decide) (by decide)

/-- Counterexample to C7 as stated: an *empty* (non-null) identity string
is not screened by the parameter check of `auth_authenticate` — the call
starts the PAM conversation and has policy side effects (the tracked
identity switches to the empty string and the counter is re-evaluated),
rather than rejecting immediately without side effects. -/
theorem auth_empty_args_counterexample :
    (auth_authenticate (some "") (some "pw") (some cfg_fixture)
        (some st_bob2_fixture) 100 pam_reject_fixture).pam_started = true ∧
    (auth_authenticate (some "") (some "pw") (some cfg_fixture)
        (some st_bob2_fixture) 100 pam_reject_fixture).state =
      some { username := "", failed_attempts := 1, lockout_until := 0 } := by
  decide

/-- Amended C7: if any argument of `auth_authenticate` is missing (a null
pointer), the call returns Rejected immediately, without contacting the
identity provider and without policy side effects; empty strings are not
screened by this check and flow through the normal policy path. -/
theorem auth_null_args_reject_immediately
    (u p : Option String) (c : Option kia_config_t)
    (st : Option auth_state_t) (now : Int) (pam : pam_outcome_t)
    (h : u = none ∨ p = none ∨ c = none ∨ st = none) :
    auth_authenticate u p c st now pam =
      { code := KIA_ERROR_AUTH, state := st, pam_started := false } := by
  cases u <;> cases p <;> cases c <;> cases st <;>
    simp_all [auth_authenticate]

/-- Witness for amended C7: a null identity is rejected with no contact
and no state change. -/
theorem auth_null_args_reject_immediately_witness :
    auth_authenticate none (some "pw") (some cfg_fixture)
        (some st_bob2_fixture) 100 pam_accept_fixture =
      { code := KIA_ERROR_AUTH, state := some st_bob2_fixture,
        pam_started := false } :=
  auth_null_args_reject_immediately none (some "pw") (some cfg_fixture)
    (some st_bob2_fixture) 100 pam_accept_fixture (Or.inl rfl)

/-- C8 (code bug): on the empty-username validation failure path,
`handle_get_credentials` returns to the login screen with the pending
secret still in the run context — the path performs no `secure_memzero`,
although the TUI call has just filled the password buffer. -/
theorem handle_get_credentials_empty_username_keeps_secret :
    (handle_get_credentials ctx_fixture
        { code := KIA_SUCCESS, username := "", password := "hunter2" }).1.password
      = "hunter2" ∧
    (handle_get_credentials ctx_fixture
        { code := KIA_SUCCESS, username := "", password := "hunter2" }).1.state
      = app_state_t.state_show_login := by
  decide

/-- Claim C1: in the forked child of `session_start`, a post-drop identity
verification failure (any of real/effective uid/gid differing from the
target account's) makes the child exit with a failure status before any
`execlp`; conversely the child reaches an `execlp` only when all four
identity values equal the target's. -/
theorem session_child_verifies_before_exec
    (session : session_info_t) (pw : passwd_t) (username : String)
    (sys : child_sys_t) :
    (¬ ids_match sys pw →
      session_child session pw username sys = child_result_t.exited 1) ∧
    (∀ prog args,
      session_child session pw username sys = child_result_t.execed prog args →
      ids_match sys pw) := by
  have hexit : ¬ ids_match sys pw →
      session_child session pw username sys = child_result_t.exited 1 := by
    intro hmis
    unfold session_child
    split_ifs <;> rfl
  refine ⟨hexit, ?_⟩
  intro prog args heq
  by_contra hmis
  rw [hexit hmis] at heq
  exact child_result_t.noConfusion heq

/-- Witness for C1: with every setup call succeeding but the effective uid
left at 0, the child aborts with status 1 and never reaches `execlp`. -/
theorem session_child_verifies_before_exec_witness :
    session_child session_fixture passwd_fixture "user"
        sys_drop_failed_fixture = child_result_t.exited 1 :=
  (session_child_verifies_before_exec session_fixture passwd_fixture "user"
      sys_drop_failed_fixture).1 (by decide)

theorem auth_record_failure_inv (cfg : kia_config_t) (now : Int)
    (st : auth_state_t) (hmax : 1 ≤ cfg.max_attempts)
    (hdur : 0 ≤ cfg.lockout_duration) (hnow : 1 ≤ now)
    (h0 : 0 ≤ st.failed_attempts)
    (hlt : st.failed_attempts < cfg.max_attempts)
    (hl0 : st.lockout_until = 0) :
    auth_inv_strong cfg (auth_record_failure cfg now st) := by
  unfold auth_record_failure auth_inv_strong
  by_cases hge : st.failed_attempts + 1 ≥ cfg.max_attempts <;>
    simp [hge] <;> omega

theorem auth_is_locked_out_state_inv (cfg : kia_config_t) (now : Int)
    (st : auth_state_t) (hmax : 1 ≤ cfg.max_attempts)
    (hinv : auth_inv_strong cfg st) :
    auth_inv_strong cfg (auth_is_locked_out_state now st).2 := by
  obtain ⟨h0, hlt, heq⟩ := hinv
  unfold auth_is_locked_out_state
  split_ifs with h1 h2
  · exact ⟨h0, hlt, heq⟩
  · simp only [auth_inv_strong]
    refine ⟨le_refl 0, fun _ => by omega, fun hc => absurd rfl hc⟩
  · exact ⟨h0, hlt, heq⟩

theorem auth_authenticate_core_inv (u p : String) (cfg : kia_config_t)
    (st : auth_state_t) (now : Int) (pam : pam_outcome_t)
    (hmax : 1 ≤ cfg.max_attempts) (hdur : 0 ≤ cfg.lockout_duration)
    (hnow : 1 ≤ now) (hinv : auth_inv_strong cfg st) :
    auth_inv_strong cfg (auth_authenticate_core u p cfg st now pam).state := by
  have h1 := auth_is_locked_out_state_inv cfg now st hmax hinv
  obtain ⟨g0, glt, geq⟩ := h1
  unfold auth_authenticate_core
  by_cases hl : (auth_is_locked_out_state now st).1
  · simp only [hl, if_true]
    exact ⟨g0, glt, geq⟩
  · have hl2 : (auth_is_locked_out_state now st).1 = false :=
      Bool.not_eq_true _ ▸ eq_false_of_ne_true hl
    have hlk0 : (auth_is_locked_out_state now st).2.lockout_until = 0 :=
      auth_is_locked_out_state_false_lockout now st hl2
    have hsw : auth_inv_strong cfg
        { (auth_is_locked_out_state now st).2 with
            username := strncpy_trunc 256 u, failed_attempts := 0,
            lockout_until := 0 } := by
      simp only [auth_inv_strong]
      exact ⟨le_refl 0, fun _ => by omega, fun hc => absurd rfl hc⟩
    by_cases hu : (auth_is_locked_out_state now st).2.username = u <;>
      by_cases hso : pam.start_ok <;> by_cases hao : pam.auth_ok <;>
      by_cases hac : pam.acct_ok <;>
      simp only [hl2, hu, hso, hao, hac, Bool.false_eq_true, not_false_iff,
        not_true, if_true, if_false, ite_true, ite_false, if_neg, if_pos,
        Bool.true_eq_false] <;>
      first
      | exact ⟨g0, glt, geq⟩
      | exact hsw
      | (apply auth_record_failure_inv cfg now _ hmax hdur hnow <;>
         (try simp_all) <;> (try omega))

theorem auth_op_apply_inv (cfg : kia_config_t) (st : auth_state_t)
    (op : auth_op_t) (hmax : 1 ≤ cfg.max_attempts)
    (hdur : 0 ≤ cfg.lockout_duration)
    (htime : auth_op_time_pos op = true)
    (hinv : auth_inv_strong cfg st) :
    auth_inv_strong cfg (auth_op_apply cfg st op) := by
  cases op with
  | authenticate u p now pam =>
    have hnow : (1 : Int) ≤ now := by
      simpa [auth_op_time_pos] using htime
    exact auth_authenticate_core_inv u p cfg st now pam hmax hdur hnow hinv
  | is_locked_out now =>
    exact auth_is_locked_out_state_inv cfg now st hmax hinv
  | reset_attempts =>
    simp only [auth_op_apply, auth_inv_strong]
    exact ⟨le_refl 0, fun _ => by omega, fun hc => absurd rfl hc⟩

theorem auth_run_inv (cfg : kia_config_t) (hmax : 1 ≤ cfg.max_attempts)
    (hdur : 0 ≤ cfg.lockout_duration) :
    ∀ (ops : List auth_op_t) (st : auth_state_t),
      ops.all auth_op_time_pos = true → auth_inv_strong cfg st →
      auth_inv_strong cfg (auth_run cfg st ops)
  | [], _, _, hinv => hinv
  | op :: rest, st, hall, hinv => by
    have h1 : auth_op_time_pos op = true ∧
        rest.all auth_op_time_pos = true := by
      simpa [List.all_cons, Bool.and_eq_true] using hall
    have hstep := auth_op_apply_inv cfg st op hmax hdur h1.1 hinv
    have h2 := auth_run_inv cfg hmax hdur rest (auth_op_apply cfg st op)
      h1.2 hstep
    simpa [auth_run, List.foldl_cons] using h2

theorem parse_config_line_in_range (line : String) (cfg : kia_config_t)
    (h : config_in_range cfg) :
    config_in_range (parse_config_line line cfg).2 := by
  unfold parse_config_line
  rcases hl : line.toList with _ | ⟨c, rest⟩
  · simpa using h
  · simp only [hl]
    by_cases hc : c = '#'
    · simpa [hc] using h
    · simp only [hc, if_false, ite_false]
      rcases hsp : split_at_equals (c :: rest) with _ | ⟨rawkey, rawvalue⟩
      · simpa using h
      · simp only []
        split_ifs <;>
          first
          | exact h
          | (simp only [config_in_range] at h ⊢
             constructor <;> simp_all)

theorem parse_config_line_cases (line : String) (cfg : kia_config_t) :
    (parse_config_line line cfg).1 = KIA_SUCCESS ∨
    (parse_config_line line cfg).2 = cfg := by
  unfold parse_config_line
  rcases hl : line.toList with _ | ⟨c, rest⟩
  · simp
  · simp only [hl]
    by_cases hc : c = '#'
    · simp [hc]
    · simp only [hc, if_false, ite_false]
      rcases hsp : split_at_equals (c :: rest) with _ | ⟨rawkey, rawvalue⟩
      · simp
      · simp only []
        split_ifs <;> simp

theorem parse_config_line_err (line : String) (cfg : kia_config_t)
    (h : (parse_config_line line cfg).1 ≠ KIA_SUCCESS) :
    (parse_config_line line cfg).2 = cfg :=
  (parse_config_line_cases line cfg).resolve_left h

theorem config_process_line_in_range (acc : kia_config_t × Bool)
    (line : String) (h : config_in_range acc.1) :
    config_in_range (config_process_line acc line).1 := by
  unfold config_process_line
  split_ifs with h1
  · exact h
  · exact parse_config_line_in_range _ _ h

theorem config_foldl_in_range :
    ∀ (lines : List String) (acc : kia_config_t × Bool),
      config_in_range acc.1 →
      config_in_range (lines.foldl config_process_line acc).1
  | [], _, h => h
  | line :: rest, acc, h => by
    rw [List.foldl_cons]
    exact config_foldl_in_range rest (config_process_line acc line)
      (config_process_line_in_range acc line h)

theorem config_load_in_range (path : Option String)
    (file : Option (List String)) :
    config_in_range (config_load path file).2 := by
  have hdef : config_in_range config_set_defaults := by decide
  unfold config_load
  rcases path with _ | p
  · exact hdef
  · by_cases hp : p = ""
    · simpa [hp] using hdef
    · simp only [hp, if_false, ite_false]
      rcases file with _ | lines
      · exact hdef
      · simp only []
        split_ifs with hv
        · exact hdef
        all_goals
          exact config_foldl_in_range lines (config_set_defaults, false) hdef

/-- Claim C6: every authentication state reachable from the
zero-initialized state through any sequence of `auth_authenticate`,
`auth_is_locked_out` and `auth_reset_attempts` calls, under a validated
configuration and positive (epoch-second) call times, satisfies
`0 ≤ failed_attempts ≤ max_attempts`, and has `lockout_until` nonzero only
with `failed_attempts` at the `max_attempts` threshold that set it. -/
theorem auth_reachable_state_invariant (cfg : kia_config_t)
    (ops : List auth_op_t) (hvalid : config_validate cfg = KIA_SUCCESS)
    (htimes : ops.all auth_op_time_pos = true) :
    auth_inv cfg (auth_run cfg auth_state_zero ops) := by
  have hrange : 1 ≤ cfg.max_attempts ∧ 0 ≤ cfg.lockout_duration := by
    unfold config_validate at hvalid
    split_ifs at hvalid with h1 h2
    · exact absurd hvalid (by decide)
    · exact absurd hvalid (by decide)
    · exact ⟨by omega, by omega⟩
  have hzero : auth_inv_strong cfg auth_state_zero := by
    simp only [auth_inv_strong, auth_state_zero]
    exact ⟨le_refl 0, fun _ => by omega, fun hc => absurd rfl hc⟩
  obtain ⟨h0, hlt, heq⟩ :=
    auth_run_inv cfg hrange.1 hrange.2 ops auth_state_zero htimes hzero
  refine ⟨h0, ?_, heq⟩
  by_cases hc : (auth_run cfg auth_state_zero ops).lockout_until = 0
  · exact le_of_lt (hlt hc)
  · exact le_of_eq (heq hc)

/-- Witness for C6: the invariant holds at the end of a concrete trace
that reaches the lockout threshold, probes the lockout, lets it expire and
then succeeds. -/
theorem auth_reachable_state_invariant_witness :
    auth_inv cfg_fixture (auth_run cfg_fixture auth_state_zero ops_fixture) :=
  auth_reachable_state_invariant cfg_fixture ops_fixture (by decide)
    (by decide)

/-- Claim C3: from a state with no lockout set whose tracked identity is
the requested one, any provider rejection (credential check or account
validity) makes `auth_authenticate` increment `failed_attempts` by exactly
one and return Rejected, and when the incremented counter equals
`max_attempts` it sets `lockout_until = now + lockout_duration`. -/
theorem auth_rejection_increments_and_locks
    (u p : String) (cfg : kia_config_t) (st : auth_state_t) (now : Int)
    (pam : pam_outcome_t) (hnolock : st.lockout_until = 0)
    (hsame : st.username = u) (hstart : pam.start_ok = true)
    (hrej : pam.auth_ok = false ∨ pam.acct_ok = false) :
    (auth_authenticate (some u) (some p) (some cfg) (some st) now pam).code =
        KIA_ERROR_AUTH ∧
    ((auth_authenticate (some u) (some p) (some cfg) (some st) now
        pam).state.map (fun s => s.failed_attempts)) =
      some (st.failed_attempts + 1) ∧
    (st.failed_attempts + 1 = cfg.max_attempts →
      ((auth_authenticate (some u) (some p) (some cfg) (some st) now
          pam).state.map (fun s => s.lockout_until)) =
        some (now + cfg.lockout_duration)) := by
  have hcore : auth_authenticate_core u p cfg st now pam =
      { code := KIA_ERROR_AUTH, state := auth_record_failure cfg now st,
        pam_started := true } := by
    unfold auth_authenticate_core
    cases hao : pam.auth_ok with
    | false =>
      simp [auth_is_locked_out_state, hnolock, hsame, hstart, hao]
    | true =>
      rcases hrej with h | h
      · exact absurd hao (by simp [h])
      · simp [auth_is_locked_out_state, hnolock, hsame, hstart, hao, h]
  refine ⟨?_, ?_, ?_⟩
  · simp [auth_authenticate, hcore]
  · by_cases hge : st.failed_attempts + 1 ≥ cfg.max_attempts <;>
      simp [auth_authenticate, hcore, auth_record_failure, hge]
  · intro heq
    have hge : st.failed_attempts + 1 ≥ cfg.max_attempts := le_of_eq heq.symm
    simp [auth_authenticate, hcore, auth_record_failure, hge]

/-- Witness for C3: the third rejected attempt for the tracked identity
under `max_attempts = 3` reaches the threshold and sets
`lockout_until = 100 + 60`. -/
theorem auth_rejection_increments_and_locks_witness :
    (auth_authenticate (some "bob") (some "wrong") (some cfg_fixture)
        (some st_bob2_fixture) 100 pam_reject_fixture).code =
        KIA_ERROR_AUTH ∧
    ((auth_authenticate (some "bob") (some "wrong") (some cfg_fixture)
        (some st_bob2_fixture) 100 pam_reject_fixture).state.map
      (fun s => s.failed_attempts)) = some 3 ∧
    ((auth_authenticate (some "bob") (some "wrong") (some cfg_fixture)
        (some st_bob2_fixture) 100 pam_reject_fixture).state.map
      (fun s => s.lockout_until)) = some 160 :=
  ⟨(auth_rejection_increments_and_locks "bob" "wrong" cfg_fixture
      st_bob2_fixture 100 pam_reject_fixture (by decide) (by decide)
      (by decide) (Or.inl (by decide))).1,
   (auth_rejection_increments_and_locks "bob" "wrong" cfg_fixture
      st_bob2_fixture 100 pam_reject_fixture (by decide) (by decide)
      (by decide) (Or.inl (by decide))).2.1,
   (auth_rejection_increments_and_locks "bob" "wrong" cfg_fixture
      st_bob2_fixture 100 pam_reject_fixture (by decide) (by decide)
      (by decide) (Or.inl (by decide))).2.2 (by decide)⟩

/-- Claim C4: when the tracked identity differs from the requested one and
no lockout is active, `auth_authenticate` starts tracking the new identity
with a clean counter before evaluating the attempt, so one rejected
attempt yields `failed_attempts = 1` for the new identity (not the old
count plus one). -/
theorem auth_identity_switch_resets_counter
    (u p : String) (cfg : kia_config_t) (st : auth_state_t) (now : Int)
    (pam : pam_outcome_t)
    (hnl : (auth_is_locked_out_state now st).1 = false)
    (hdiff : st.username ≠ u) (hlen : u.length ≤ 255)
    (hstart : pam.start_ok = true)
    (hrej : pam.auth_ok = false ∨ pam.acct_ok = false) :
    (auth_authenticate (some u) (some p) (some cfg) (some st) now pam).code =
        KIA_ERROR_AUTH ∧
    ((auth_authenticate (some u) (some p) (some cfg) (some st) now
        pam).state.map (fun s => (s.username, s.failed_attempts))) =
      some (u, 1) := by
  have hu1 : (auth_is_locked_out_state now st).2.username = st.username :=
    auth_is_locked_out_state_username now st
  have htr : strncpy_trunc 256 u = u := strncpy_trunc_of_le 256 u hlen
  have hcore : auth_authenticate_core u p cfg st now pam =
      { code := KIA_ERROR_AUTH,
        state := auth_record_failure cfg now
          { (auth_is_locked_out_state now st).2 with
              username := u, failed_attempts := 0, lockout_until := 0 },
        pam_started := true } := by
    unfold auth_authenticate_core
    cases hao : pam.auth_ok with
    | false => simp [hnl, hu1, hdiff, htr, hstart, hao]
    | true =>
      rcases hrej with h | h
      · exact absurd hao (by simp [h])
      · simp [hnl, hu1, hdiff, htr, hstart, hao, h]
  refine ⟨?_, ?_⟩
  · simp [auth_authenticate, hcore]
  · by_cases hge : (1 : Int) ≥ cfg.max_attempts <;>
      simp [auth_authenticate, hcore, auth_record_failure, hge]

/-- Claim C9: `config_load` always yields `max_attempts ∈ [1,10]` and
`lockout_duration ∈ [0,3600]`; a line the parser rejects (parse error or
out-of-range value) never stores anything; a missing file non-fatally
yields the defaults; and in a file mixing an out-of-range `max_attempts`
with a valid `lockout_duration`, only the rejected field stays at its
default while the valid one keeps its parsed value (the load is flagged
non-fatally with `KIA_ERROR_CONFIG`). -/
theorem config_load_ranges_and_defaults :
    (∀ (path : Option String) (file : Option (List String)),
        config_in_range (config_load path file).2) ∧
    (∀ (line : String) (cfg : kia_config_t),
        (parse_config_line line cfg).1 ≠ KIA_SUCCESS →
        (parse_config_line line cfg).2 = cfg) ∧
    config_load (some "/etc/kia/config") none =
      (KIA_SUCCESS, config_set_defaults) ∧
    config_load (some "/etc/kia/config")
        (some ["max_attempts=99", "lockout_duration=120"]) =
      (KIA_ERROR_CONFIG,
        { config_set_defaults with lockout_duration := 120 }) := by
  refine ⟨config_load_in_range, parse_config_line_err, ?_, ?_⟩
  · decide
  · decide

/-- Witness for C9: a rejected out-of-range line leaves the configuration
unchanged, and the range invariant holds on a loaded configuration. -/
theorem config_load_ranges_and_defaults_witness :
    (parse_config_line "max_attempts=0" config_set_defaults).2 =
      config_set_defaults ∧
    config_in_range (config_load (some "/etc/kia/config")
      (some ["lockout_duration=7"])).2 :=
  ⟨config_load_ranges_and_defaults.2.1 "max_attempts=0" config_set_defaults
      (by decide),
   config_load_ranges_and_defaults.1 (some "/etc/kia/config")
      (some ["lockout_duration=7"])⟩

/-- Witness for C4: from `(identity = "userA", failed_attempts = 2)`, one
rejected attempt for `"userB"` yields `(identity = "userB",
failed_attempts = 1)`, not 3. -/
theorem auth_identity_switch_resets_counter_witness :
    ((auth_authenticate (some "userB") (some "pw") (some cfg_fixture)
        (some { username := "userA", failed_attempts := 2,
                lockout_until := 0 }) 100 pam_reject_fixture).state.map
      (fun s => (s.username, s.failed_attempts))) = some ("userB", 1) :=
  (auth_identity_switch_resets_counter "userB" "pw" cfg_fixture
      { username := "userA", failed_attempts := 2, lockout_until := 0 } 100
      pam_reject_fixture (by decide) (by decide) (by decide) (by decide)
      (Or.inl (by decide))).2
